import Mathlib

/-!
# MemoGarden Core — verification of the transactional entity store

Shallow embedding of `memogarden_core` (Python/SQLite) and proofs about it.

Modelling conventions:
* Timestamps and dates are abstracted to `Nat`.  The source stores them as
  ISO-8601 strings with a trailing `Z` (timestamps) or `YYYY-MM-DD` (dates);
  for such strings SQLite's lexicographic TEXT comparison agrees with
  chronological order, so `Nat` with its usual order is a faithful abstraction.
* A SQLite connection is a pair of database states: the `committed` state
  (what is durable on disk) and the `pending` state (the connection's view,
  including writes of the currently open implicit transaction).  `execute`
  acts on `pending`; `commit` publishes `pending`; `rollback` and `close`
  without a commit discard the pending writes (Python `sqlite3` rolls an
  open transaction back when the connection is closed).
* UUID generation (`utils/uid.generate_uuid`) is modelled by a stream
  `gen : Nat → String` of candidate identifiers: attempt `i` of the retry
  loop draws `gen i`.
* Exceptions become `Except`/`Option` results; the distinct exception
  classes become tags.
-/

namespace MemoGarden

/-- A row of the `entity` registry table
(`entity.py`: id, type, group_id, derived_from, superseded_by, superseded_at,
created_at, updated_at). -/
structure Entity where
  id : String
  type : String
  group_id : Option String := none
  derived_from : Option String := none
  superseded_by : Option String := none
  superseded_at : Option Nat := none
  created_at : Nat
  updated_at : Nat
deriving Repr, DecidableEq

/-- A row of the `transactions` table
(`transaction.py` INSERT column list: id, amount, currency, transaction_date,
description, account, category, author, notes).  Amounts are abstracted to
`Int`. -/
structure TransactionRow where
  id : String
  amount : Int
  currency : String
  transaction_date : Nat
  description : String
  account : String
  category : Option String := none
  author : String := "system"
  notes : Option String := none
deriving Repr, DecidableEq

/-- The database state relevant to the claims: the entity registry and the
transactions domain table. -/
structure DB where
  entities : List Entity := []
  transactions : List TransactionRow := []
deriving Repr, DecidableEq

/-- Does an entity row with this id exist?  (The PRIMARY KEY uniqueness check
that raises `sqlite3.IntegrityError` on a duplicate insert.) -/
def entityIdExists (db : DB) (id : String) : Bool :=
  db.entities.any (fun e => e.id == id)

/-- The single `INSERT INTO entity` of `EntityOperations.create`: both
timestamps are set to `now`. -/
def entityInsert (db : DB) (id ty : String) (group_id derived_from : Option String)
    (now : Nat) : DB :=
  { db with entities := db.entities ++
      [{ id := id, type := ty, group_id := group_id, derived_from := derived_from,
         superseded_by := none, superseded_at := none,
         created_at := now, updated_at := now }] }

/-- The failure of `EntityOperations.create` when every retry collides
(the re-raised `sqlite3.IntegrityError` on the last attempt). -/
inductive CreateError
  | collisionExhausted
deriving Repr, DecidableEq

/-- `EntityOperations.create` (`entity.py` lines 38-76): `max_retries = 3`
attempts, each drawing a fresh candidate UUID; a candidate whose id already
exists is a collision; the loop retries, re-raising on the last attempt.
The loop body is unrolled for the fixed bound 3 of the source. -/
def entityCreate (db : DB) (gen : Nat → String) (ty : String)
    (group_id derived_from : Option String) (now : Nat) :
    Except CreateError (String × DB) :=
  let id0 := gen 0
  if entityIdExists db id0 then
    let id1 := gen 1
    if entityIdExists db id1 then
      let id2 := gen 2
      if entityIdExists db id2 then
        .error .collisionExhausted
      else .ok (id2, entityInsert db id2 ty group_id derived_from now)
    else .ok (id1, entityInsert db id1 ty group_id derived_from now)
  else .ok (id0, entityInsert db id0 ty group_id derived_from now)

/-- `EntityOperations.get_by_id` restricted to the `entity` table: `none`
models the `ResourceNotFound` exception. -/
def entityGetById (db : DB) (id : String) : Option Entity :=
  db.entities.find? (fun e => e.id == id)

/-- `EntityOperations.supersede` (`entity.py` lines 110-128): one UPDATE
setting `superseded_by`, `superseded_at` and `updated_at` on the row with
the given id. -/
def entitySupersede (db : DB) (old_id new_id : String) (now : Nat) : DB :=
  { db with entities := db.entities.map (fun e =>
      if e.id == old_id then
        { e with superseded_by := some new_id, superseded_at := some now,
                 updated_at := now }
      else e) }

/-- `EntityOperations.update_timestamp`: one UPDATE advancing `updated_at`. -/
def entityUpdateTimestamp (db : DB) (id : String) (now : Nat) : DB :=
  { db with entities := db.entities.map (fun e =>
      if e.id == id then { e with updated_at := now } else e) }

/-! ## Connection and Unit of Work (`db/__init__.py`) -/

/-- A SQLite connection: durable state, the connection's pending view, and
whether the connection has been closed. -/
structure ConnState where
  committed : DB
  pending : DB
  closed : Bool := false
deriving Repr, DecidableEq

/-- `conn.commit()`: the pending writes become durable. -/
def connCommit (c : ConnState) : ConnState :=
  { c with committed := c.pending }

/-- `conn.rollback()`: the pending writes are discarded. -/
def connRollback (c : ConnState) : ConnState :=
  { c with pending := c.committed }

/-- `conn.close()`: an open implicit transaction is rolled back (Python
`sqlite3` does not commit on close) and the connection is released. -/
def connClose (c : ConnState) : ConnState :=
  { c with pending := c.committed, closed := true }

/-- A fresh connection over durable state `d` (`_create_connection`). -/
def connOpen (d : DB) : ConnState :=
  { committed := d, pending := d, closed := false }

/-- `Core.__exit__` (`db/__init__.py` lines 120-138): commit when no
exception occurred, rollback otherwise; in both cases the `finally` block
closes the connection.  The method returns `None`, i.e. it never suppresses
the exception — the returned `Bool` is that (always-false) suppression
flag. -/
def coreExit (excOccurred : Bool) (c : ConnState) : Bool × ConnState :=
  let c1 := if excOccurred then connRollback c else connCommit c
  (false, connClose c1)

/-- An atomic-mode `with get_core(atomic=True)` block over durable state `d`:
the operations that actually executed inside the block are `body`, applied to
the connection's pending view; `excOccurred` tells whether the block raised.
`__enter__` only checks the mode flag and returns `self`. -/
def runAtomicBlock (d : DB) (body : DB → DB) (excOccurred : Bool) :
    Bool × ConnState :=
  let c0 := connOpen d
  let c1 := { c0 with pending := body c0.pending }
  coreExit excOccurred c1

/-- One operation performed through an autocommit-mode Core
(`Core` with `atomic=False`): the operation's SQL executes on the
connection's pending view, and — as the source stands — nothing else
happens: no `commit()` and no `close()` surround the operation. -/
def autocommitRun (c : ConnState) (op : DB → DB) : ConnState :=
  { c with pending := op c.pending }

/-! ## Transaction operations (`db/transaction.py`) -/

/-- `TransactionOperations.get_by_id`: a SELECT on `transactions_view`, the
join view exposing domain fields alongside registry metadata; `none` models
`ResourceNotFound`. -/
def transactionGetById (db : DB) (tid : String) :
    Option (TransactionRow × Entity) :=
  match db.transactions.find? (fun t => t.id == tid), entityGetById db tid with
  | some t, some e => some (t, e)
  | _, _ => none

/-- `TransactionOperations.create` (`transaction.py` lines 70-119): creates
the registry entry via `core.entity.create("transactions")`, then inserts the
domain row.  The `currency` column is the literal `"SGD"` — the method takes
no currency parameter. -/
def transactionCreate (db : DB) (gen : Nat → String) (amount : Int)
    (transaction_date : Nat) (description account : String)
    (category : Option String) (notes : Option String) (author : String)
    (now : Nat) : Except CreateError (String × DB) :=
  match entityCreate db gen "transactions" none none now with
  | .error e => .error e
  | .ok (tid, db1) =>
      .ok (tid, { db1 with transactions := db1.transactions ++
        [{ id := tid, amount := amount, currency := "SGD",
           transaction_date := transaction_date, description := description,
           account := account, category := category, author := author,
           notes := notes }] })

/-- The filter dictionary accepted by `TransactionOperations.list`:
optional range/equality fields plus the `include_superseded` flag. -/
structure TxFilters where
  start_date : Option Nat := none
  end_date : Option Nat := none
  account : Option String := none
  category : Option String := none
  include_superseded : Bool := false
deriving Repr, DecidableEq

/-- The WHERE fragment assembled by `list` through
`query.build_where_clause` with its `param_map`
(`t.transaction_date >= ?`, `t.transaction_date <= ?`, `t.account = ?`,
`t.category = ?`): `None`-valued filters are skipped, present ones are
conjoined. -/
def txMatchesFilters (f : TxFilters) (t : TransactionRow) : Bool :=
  (match f.start_date with | none => true | some s => s ≤ t.transaction_date) &&
  (match f.end_date with | none => true | some e => t.transaction_date ≤ e) &&
  (match f.account with | none => true | some a => t.account == a) &&
  (match f.category with | none => true | some c => t.category == some c)

/-- The FROM/JOIN of `list`: `transactions t JOIN entity e ON t.id = e.id`. -/
def joinedRows (db : DB) : List (TransactionRow × Entity) :=
  db.transactions.filterMap (fun t => (entityGetById db t.id).map (fun e => (t, e)))

/-- The ORDER BY of `list`:
`t.transaction_date DESC, e.created_at DESC` — row `a` may precede row `b`
iff `a`'s date is later, or the dates tie and `a`'s creation time is not
earlier. -/
def txBefore (a b : TransactionRow × Entity) : Prop :=
  b.1.transaction_date < a.1.transaction_date ∨
    (b.1.transaction_date = a.1.transaction_date ∧ b.2.created_at ≤ a.2.created_at)

instance : DecidableRel txBefore := fun a b => by
  unfold txBefore; exact inferInstance

instance : IsTotal (TransactionRow × Entity) txBefore :=
  ⟨by intro a b; unfold txBefore; omega⟩

instance : IsTrans (TransactionRow × Entity) txBefore :=
  ⟨by intro a b c; unfold txBefore; omega⟩

/-- `TransactionOperations.list` (`transaction.py` lines 121-177): join,
filter (appending `e.superseded_by IS NULL` unless `include_superseded` is
set), order by date then creation time descending, then `LIMIT ? OFFSET ?`
(skip `offset` rows, return at most `limit`). -/
def transactionList (db : DB) (f : TxFilters) (limit offset : Nat) :
    List (TransactionRow × Entity) :=
  let rows := (joinedRows db).filter (fun te =>
    txMatchesFilters f te.1 &&
      (f.include_superseded || te.2.superseded_by == none))
  (((rows.insertionSort txBefore).drop offset).take limit)

/-- The partial-update dictionary passed to `TransactionOperations.update`.
An `id` key may be present in the dictionary, but `build_update_clause` is
called with `exclude={"id"}`, so it never reaches the SET clause.  A `none`
field models an absent/`None` value (skipped); nullable columns can therefore
never be set back to NULL through `update`. -/
structure TxUpdate where
  id : Option String := none
  amount : Option Int := none
  currency : Option String := none
  transaction_date : Option Nat := none
  description : Option String := none
  account : Option String := none
  category : Option String := none
  author : Option String := none
  notes : Option String := none
deriving Repr, DecidableEq

/-- Is the SET clause built by `build_update_clause(data, exclude={"id"})`
empty?  (All non-excluded values absent.) -/
def TxUpdate.isEmpty (u : TxUpdate) : Bool :=
  u.amount.isNone && u.currency.isNone && u.transaction_date.isNone &&
  u.description.isNone && u.account.isNone && u.category.isNone &&
  u.author.isNone && u.notes.isNone

/-- The effect of the generated `UPDATE transactions SET ... WHERE id = ?`
on the matching row: each mentioned field is overwritten, absent fields keep
their previous values, and `id` — excluded from the clause — is untouched. -/
def applyTxUpdate (u : TxUpdate) (t : TransactionRow) : TransactionRow :=
  { t with
    amount := u.amount.getD t.amount,
    currency := u.currency.getD t.currency,
    transaction_date := u.transaction_date.getD t.transaction_date,
    description := u.description.getD t.description,
    account := u.account.getD t.account,
    category := match u.category with | none => t.category | some c => some c,
    author := u.author.getD t.author,
    notes := match u.notes with | none => t.notes | some n => some n }

/-- `TransactionOperations.update` (`transaction.py` lines 179-217): build
the SET clause excluding `id`; when it is non-empty, run the UPDATE on the
`transactions` row and advance the owning entity's `updated_at`; when it is
empty, perform no write at all. -/
def transactionUpdate (db : DB) (tid : String) (u : TxUpdate) (now : Nat) : DB :=
  if u.isEmpty then db
  else
    let db1 := { db with transactions := db.transactions.map (fun (t : TransactionRow) =>
      if t.id == tid then applyTxUpdate u t else t) }
    { db1 with entities := db1.entities.map (fun (e : Entity) =>
      if e.id == tid then { e with updated_at := now } else e) }

/-! ## HTTP endpoint paths (`api/v1/transactions.py`) -/

/-- Error outcomes of the endpoint handlers relevant here. -/
inductive ApiError
  | notFound
  | conflict
deriving Repr, DecidableEq

/-- The validated body of `POST /api/v1/transactions`
(`TransactionCreate`: amount, currency defaulting to `"SGD"`,
transaction_date, description, account, category, notes). -/
structure TransactionCreateBody where
  amount : Int
  currency : String := "SGD"
  transaction_date : Nat
  description : String := ""
  account : String
  category : Option String := none
  notes : Option String := none
deriving Repr, DecidableEq

/-- `create_transaction` (`api/v1/transactions.py` lines 83-105): inside
`with get_core(atomic=True)`, call `core.transaction.create(...)` passing
amount, transaction_date, description, account, category and notes — the
validated body's `currency` is not passed; the block commits on success. -/
def createTransactionEndpoint (d : DB) (gen : Nat → String) (now : Nat)
    (data : TransactionCreateBody) : Except CreateError (String × DB) :=
  match transactionCreate d gen data.amount data.transaction_date
      data.description data.account data.category data.notes "system" now with
  | .error e => .error e
  | .ok (tid, d') => .ok (tid, d')

/-- `delete_transaction` (`api/v1/transactions.py` lines 373-409): check the
row exists (else `ResourceNotFound`), then `DELETE FROM transactions WHERE
id = ?` and commit.  No tombstone entity is created and `supersede` is never
called on this path. -/
def deleteTransaction (d : DB) (tid : String) : Except ApiError DB :=
  if d.transactions.any (fun t => t.id == tid) then
    .ok { d with transactions := d.transactions.filter (fun t => !(t.id == tid)) }
  else
    .error .notFound

/-! ## Authentication (`auth/decorators.py` and the credential store)

`auth/token.py`, `auth/api_keys.py` and `auth/service.py` are imported by
`auth/decorators.py` but are not present in the source tree; they are
modelled from the spec below.  `_authenticate_request` itself is translated
from `auth/decorators.py`. -/

/-- The identity claims carried by a bearer token (sub, username, admin
flag). -/
structure TokenPayload where
  sub : String
  username : String
  is_admin : Bool
deriving Repr, DecidableEq

/-- Modelled from the spec: a presented bearer credential, as `auth/token.py`
is missing from the source tree.  A signed token records its payload, the
secret it was signed with, and its expiry instant; anything else is
malformed. -/
inductive BearerToken
  | malformed
  | signed (payload : TokenPayload) (secret : String) (expires_at : Nat)
deriving Repr, DecidableEq

/-- Outcomes of token validation: `ok`, `jwt.ExpiredSignatureError`, or
`jwt.InvalidTokenError`. -/
inductive TokenResult
  | ok (p : TokenPayload)
  | expiredSignature
  | invalidToken
deriving Repr, DecidableEq

/-- Modelled from the spec: `token.validate_access_token`
(`auth/token.py` is missing from the source tree).  Validation verifies the
signature against the configured secret and checks expiry: any
signature/structure failure is `InvalidCredential`, a structurally valid,
correctly signed token past its expiry is `ExpiredCredential`. -/
def validateAccessToken (cfgSecret : String) (now : Nat) :
    BearerToken → TokenResult
  | .malformed => .invalidToken
  | .signed p s exp =>
      if s ≠ cfgSecret then .invalidToken
      else if exp ≤ now then .expiredSignature
      else .ok p

/-- Modelled from the spec: a salted one-way hash of a secret
(`auth/api_keys.py` with its bcrypt hashing is missing from the source
tree).  The salt makes two hashes of the same secret unequal as values;
verification compares the candidate against the hashed secret via the
algorithm's own compare, never by string equality of hashes. -/
structure SecretHash where
  secret : String
  salt : Nat
deriving Repr, DecidableEq

/-- Modelled from the spec: verification of a candidate secret against a
stored salted hash. -/
def verifySecret (candidate : String) (h : SecretHash) : Bool :=
  candidate == h.secret

/-- A row of the `api_keys` table (owning user, display name, hash,
optional expiry, last-used timestamp, optional revocation timestamp).
The stored display prefix column is omitted: it is display-only and plays
no part in verification. -/
structure ApiKeyRow where
  id : String
  user_id : String
  name : String
  key_hash : SecretHash
  expires_at : Option Nat := none
  last_seen : Option Nat := none
  revoked_at : Option Nat := none
deriving Repr, DecidableEq

/-- A row of the `users` table, as consumed by the resolver. -/
structure UserRow where
  id : String
  username : String
  is_admin : Bool
deriving Repr, DecidableEq

/-- The credential store consulted by the resolver. -/
structure AuthDB where
  users : List UserRow := []
  api_keys : List ApiKeyRow := []
deriving Repr, DecidableEq

/-- Modelled from the spec: `api_keys.verify_api_key_and_get_user`
(`auth/api_keys.py` is missing from the source tree).  The key is looked up
by matching its hash, checked for non-revocation and non-expiry; on success
its last-used timestamp is advanced and `(user_id, api_key_id)` is returned;
revoked or expired keys fail verification even though the hash matches. -/
def verifyApiKeyAndGetUser (db : AuthDB) (candidate : String) (now : Nat) :
    Option (String × String) × AuthDB :=
  match db.api_keys.find? (fun k => verifySecret candidate k.key_hash) with
  | none => (none, db)
  | some k =>
      if k.revoked_at.isSome then (none, db)
      else if (match k.expires_at with | some e => decide (e ≤ now) | none => false) then
        (none, db)
      else
        (some (k.user_id, k.id),
         { db with api_keys := db.api_keys.map (fun (r : ApiKeyRow) =>
             if r.id == k.id then { r with last_seen := some now } else r) })

/-- Modelled from the spec: `service.get_user_by_id` (`auth/service.py` is
missing from the source tree) — plain lookup by id. -/
def getUserById (db : AuthDB) (uid : String) : Option UserRow :=
  db.users.find? (fun u => u.id == uid)

/-- The `Authorization` header as read by `_authenticate_request`:
absent/empty, a value starting with `"Bearer "` (carrying a token), or a
value of some other scheme. -/
inductive AuthHeader
  | absent
  | bearer (tok : BearerToken)
  | nonBearer
deriving Repr, DecidableEq

/-- The credential headers of an inbound request.  `x_api_key = ""` models
an absent or empty `X-API-Key` header (the code tests truthiness). -/
structure AuthRequest where
  authorization : AuthHeader
  x_api_key : String := ""
deriving Repr, DecidableEq

/-- The result of `_authenticate_request`: the identity stored in `flask.g`
plus the method, or the `AuthenticationError` code raised. -/
inductive AuthOutcome
  | ok (user_id username : String) (is_admin : Bool) (method : String)
  | err (code : String)
deriving Repr, DecidableEq

/-- `_authenticate_request` (`auth/decorators.py` lines 30-102): try the
bearer token first — when the `Authorization` header starts with
`"Bearer "`, its validation outcome alone decides the request (failures
raise, they never fall through); otherwise, a non-empty `X-API-Key` header
is verified against the store; otherwise the request fails with
`missing_auth`.  Also returns the (possibly) updated credential store
(last-used advance). -/
def authenticateRequest (cfgSecret : String) (now : Nat) (db : AuthDB)
    (req : AuthRequest) : AuthOutcome × AuthDB :=
  match req.authorization with
  | .bearer tok =>
      match validateAccessToken cfgSecret now tok with
      | .ok p => (.ok p.sub p.username p.is_admin "jwt", db)
      | .expiredSignature => (.err "token_expired", db)
      | .invalidToken => (.err "invalid_token", db)
  | _ =>
      if req.x_api_key ≠ "" then
        match verifyApiKeyAndGetUser db req.x_api_key now with
        | (some (uid, _), db') =>
            match getUserById db' uid with
            | some u => (.ok u.id u.username u.is_admin "api_key", db')
            | none => (.err "invalid_api_key", db')
        | (none, db') => (.err "invalid_api_key", db')
      else
        (.err "missing_auth", db)

/-! ## Operation sequences over the store

Used to state lifecycle invariants ("every subsequent get…"): one value per
mutating operation the exposed modules can perform on the `DB` state. -/

/-- A single exposed mutating operation on the store. -/
inductive Op
  | entCreate (gen : Nat → String) (ty : String)
      (group_id derived_from : Option String) (now : Nat)
  | entSupersede (old_id new_id : String) (now : Nat)
  | entTouch (id : String) (now : Nat)
  | txCreate (gen : Nat → String) (amount : Int) (transaction_date : Nat)
      (description account : String) (category notes : Option String)
      (author : String) (now : Nat)
  | txUpdate (tid : String) (u : TxUpdate) (now : Nat)
  | txDelete (tid : String)

/-- The effect of one operation on the database state (a failing `create`
or `delete` leaves the state unchanged). -/
def applyOp (db : DB) : Op → DB
  | .entCreate gen ty g d now =>
      match entityCreate db gen ty g d now with
      | .ok (_, db') => db'
      | .error _ => db
  | .entSupersede old_id new_id now => entitySupersede db old_id new_id now
  | .entTouch id now => entityUpdateTimestamp db id now
  | .txCreate gen amount tdate descr acct cat notes author now =>
      match transactionCreate db gen amount tdate descr acct cat notes author now with
      | .ok (_, db') => db'
      | .error _ => db
  | .txUpdate tid u now => transactionUpdate db tid u now
  | .txDelete tid =>
      match deleteTransaction db tid with
      | .ok db' => db'
      | .error _ => db

/-- Run a sequence of operations left to right. -/
def applyOps (db : DB) (ops : List Op) : DB :=
  ops.foldl applyOp db

/-- Does this operation supersede entity `a`? -/
def Op.supersedesId (a : String) : Op → Prop
  | .entSupersede old_id _ _ => old_id = a
  | _ => False

instance (a : String) (op : Op) : Decidable (op.supersedesId a) := by
  cases op <;> simp [Op.supersedesId] <;> infer_instance

/-! ## Concrete sample states used by the concrete-scenario theorems -/

/-- Five created transaction records `t1..t5`; `t3` is superseded by the
dataless tombstone entity `t6`. -/
def sampleDB : DB :=
  { entities := [
      { id := "t1", type := "transactions", created_at := 1, updated_at := 1 },
      { id := "t2", type := "transactions", created_at := 2, updated_at := 2 },
      { id := "t3", type := "transactions", created_at := 3, updated_at := 3,
        superseded_by := some "t6", superseded_at := some 9 },
      { id := "t4", type := "transactions", created_at := 4, updated_at := 4 },
      { id := "t5", type := "transactions", created_at := 5, updated_at := 5 },
      { id := "t6", type := "transactions", created_at := 9, updated_at := 9 } ],
    transactions := [
      { id := "t1", amount := 1, currency := "SGD", transaction_date := 1,
        description := "", account := "acc" },
      { id := "t2", amount := 2, currency := "SGD", transaction_date := 2,
        description := "", account := "acc" },
      { id := "t3", amount := 3, currency := "SGD", transaction_date := 3,
        description := "", account := "acc" },
      { id := "t4", amount := 4, currency := "SGD", transaction_date := 4,
        description := "", account := "acc" },
      { id := "t5", amount := 5, currency := "SGD", transaction_date := 5,
        description := "", account := "acc" } ] }

/-- A store holding exactly one transaction `e1` with its entity row. -/
def oneTxDB : DB :=
  { entities := [
      { id := "e1", type := "transactions", created_at := 1, updated_at := 1 } ],
    transactions := [
      { id := "e1", amount := 10, currency := "SGD", transaction_date := 1,
        description := "d", account := "acc" } ] }

/-! ## Claim C1: atomic Unit of Work — commit / rollback / release -/

/-- C1: for every atomic-mode Unit of Work used as a scoped block: on normal
exit all operations performed inside the block are committed; on a raised
error the transaction is rolled back before the error propagates (the
suppression flag is `false`, and no write of the block is observable in the
durable state); in both cases the connection is closed on exit. -/
theorem atomic_block_commit_rollback_release (d : DB) (body : DB → DB) :
    (runAtomicBlock d body false).2.committed = body d ∧
    (runAtomicBlock d body false).2.closed = true ∧
    (runAtomicBlock d body false).1 = false ∧
    (runAtomicBlock d body true).2.committed = d ∧
    (runAtomicBlock d body true).2.pending = d ∧
    (runAtomicBlock d body true).2.closed = true ∧
    (runAtomicBlock d body true).1 = false := by
  refine ⟨rfl, rfl, rfl, rfl, rfl, rfl, rfl⟩

/-! ## Shared helper lemmas -/

/-- Whenever `entityCreate` succeeds, the returned state is exactly the
input state with the one new registry row appended, and the returned id was
fresh. -/
theorem entityCreate_ok_elim (db : DB) (gen : Nat → String) (ty : String)
    (g d : Option String) (now : Nat) {id : String} {db' : DB}
    (h : entityCreate db gen ty g d now = .ok (id, db')) :
    db' = entityInsert db id ty g d now ∧ entityIdExists db id = false := by
  unfold entityCreate at h
  by_cases h0 : entityIdExists db (gen 0) = true
  · rw [if_pos h0] at h
    by_cases h1 : entityIdExists db (gen 1) = true
    · rw [if_pos h1] at h
      by_cases h2 : entityIdExists db (gen 2) = true
      · rw [if_pos h2] at h
        exact absurd h (by simp)
      · rw [if_neg h2] at h
        injection h with h'
        injection h' with hid hdb
        subst hid; subst hdb
        exact ⟨rfl, by simpa using h2⟩
    · rw [if_neg h1] at h
      injection h with h'
      injection h' with hid hdb
      subst hid; subst hdb
      exact ⟨rfl, by simpa using h1⟩
  · rw [if_neg h0] at h
    injection h with h'
    injection h' with hid hdb
    subst hid; subst hdb
    exact ⟨rfl, by simpa using h0⟩

/-! ## Claim C2: deletion through the exposed DELETE endpoint -/

/-- C2 (evidence): deleting the only transaction through the
`DELETE /api/v1/transactions/{id}` handler physically removes the domain
row — afterwards the joined `get` finds nothing, no tombstone entity was
created (the registry still holds exactly the original entity), and that
entity was never superseded.  This contradicts the claim that every exposed
deletion creates a tombstone and calls `supersede`. -/
theorem delete_transaction_is_physical :
    deleteTransaction oneTxDB "e1" = .ok { oneTxDB with transactions := [] } ∧
    transactionGetById { oneTxDB with transactions := [] } "e1" = none ∧
    ({ oneTxDB with transactions := [] } : DB).entities = oneTxDB.entities ∧
    (entityGetById { oneTxDB with transactions := [] } "e1").map
      (fun e => e.superseded_by) = some none := by
  refine ⟨rfl, rfl, rfl, rfl⟩

/-! ## Claim C3: autocommit mode — commits after each operation? -/

/-- C3 (evidence): an entity creation performed through an autocommit-mode
Unit of Work is written only to the connection's pending view: nothing is
committed (the durable state is unchanged), the connection is not released
after the operation, and when the connection is eventually closed the open
implicit transaction is rolled back, so the write is lost.  This contradicts
"each operation commits independently" and "the connection is released
after use". -/
theorem autocommit_write_not_durable_not_released :
    (autocommitRun (connOpen {}) (fun d =>
        match entityCreate d (fun _ => "e1") "transactions" none none 0 with
        | .ok (_, d') => d'
        | .error _ => d)).pending.entities ≠ [] ∧
    (autocommitRun (connOpen {}) (fun d =>
        match entityCreate d (fun _ => "e1") "transactions" none none 0 with
        | .ok (_, d') => d'
        | .error _ => d)).committed = ({} : DB) ∧
    (autocommitRun (connOpen {}) (fun d =>
        match entityCreate d (fun _ => "e1") "transactions" none none 0 with
        | .ok (_, d') => d'
        | .error _ => d)).closed = false ∧
    (connClose (autocommitRun (connOpen {}) (fun d =>
        match entityCreate d (fun _ => "e1") "transactions" none none 0 with
        | .ok (_, d') => d'
        | .error _ => d))).committed = ({} : DB) := by
  refine ⟨by decide, by decide, by decide, by decide⟩

/-! ## Claim C9: entity creation — bounded collision retry -/

/-- C9: `EntityOperations.create` retries id generation up to 3 attempts:
if the first fresh candidate appears at attempt 0, 1 or 2, the row is
inserted with `created_at = updated_at = now` and that id is returned (one
ordinary successful result, the retries being invisible to the caller); only
when all 3 candidates collide does it fail with the collision-exhausted
error; and every successful result is exactly the input state plus the one
new row. -/
theorem entity_create_retry_bounded (db : DB) (gen : Nat → String)
    (ty : String) (g d : Option String) (now : Nat) :
    (entityIdExists db (gen 0) = false →
       entityCreate db gen ty g d now =
         .ok (gen 0, entityInsert db (gen 0) ty g d now)) ∧
    (entityIdExists db (gen 0) = true → entityIdExists db (gen 1) = false →
       entityCreate db gen ty g d now =
         .ok (gen 1, entityInsert db (gen 1) ty g d now)) ∧
    (entityIdExists db (gen 0) = true → entityIdExists db (gen 1) = true →
       entityIdExists db (gen 2) = false →
       entityCreate db gen ty g d now =
         .ok (gen 2, entityInsert db (gen 2) ty g d now)) ∧
    (entityIdExists db (gen 0) = true → entityIdExists db (gen 1) = true →
       entityIdExists db (gen 2) = true →
       entityCreate db gen ty g d now = .error .collisionExhausted) ∧
    (∀ id db', entityCreate db gen ty g d now = .ok (id, db') →
       db'.entities = db.entities ++
         [{ id := id, type := ty, group_id := g, derived_from := d,
            superseded_by := none, superseded_at := none,
            created_at := now, updated_at := now }]) := by
  refine ⟨?_, ?_, ?_, ?_, ?_⟩
  · intro h0
    unfold entityCreate
    rw [if_neg (by simp [h0])]
  · intro h0 h1
    unfold entityCreate
    rw [if_pos h0, if_neg (by simp [h1])]
  · intro h0 h1 h2
    unfold entityCreate
    rw [if_pos h0, if_pos h1, if_neg (by simp [h2])]
  · intro h0 h1 h2
    unfold entityCreate
    rw [if_pos h0, if_pos h1, if_pos h2]
  · intro id db' h
    obtain ⟨hdb, -⟩ := entityCreate_ok_elim db gen ty g d now h
    subst hdb
    rfl

/-- Witness for C9: over the store holding entity `e1`, a generator whose
first candidate collides with `e1` and whose second candidate is fresh makes
`create` succeed on the second attempt. -/
theorem entity_create_retry_bounded_witness :
    entityCreate oneTxDB (fun i => if i = 0 then "e1" else "x2")
        "transactions" none none 5 =
      .ok ("x2", entityInsert oneTxDB "x2" "transactions" none none 5) :=
  (entity_create_retry_bounded oneTxDB (fun i => if i = 0 then "e1" else "x2")
      "transactions" none none 5).2.1 (by decide) (by decide)

/-! ## Claim C10: the Core create path always stores currency "SGD" -/

/-- C10: every transaction created through `TransactionOperations.create`
(and hence through the POST endpoint, which calls it without passing the
body's `currency`) is stored with currency exactly `"SGD"`; the endpoint's
result is entirely independent of the currency supplied in the request
body. -/
theorem transaction_currency_always_sgd (d : DB) (gen : Nat → String)
    (now : Nat) (data : TransactionCreateBody) :
    (∀ tid d', createTransactionEndpoint d gen now data = .ok (tid, d') →
       d'.transactions = d.transactions ++
         [{ id := tid, amount := data.amount, currency := "SGD",
            transaction_date := data.transaction_date,
            description := data.description, account := data.account,
            category := data.category, author := "system",
            notes := data.notes }]) ∧
    (∀ c : String,
       createTransactionEndpoint d gen now { data with currency := c } =
         createTransactionEndpoint d gen now data) := by
  constructor
  · intro tid d' h
    unfold createTransactionEndpoint transactionCreate at h
    cases hc : entityCreate d gen "transactions" none none now with
    | error e => rw [hc] at h; exact absurd h (by simp)
    | ok p =>
      obtain ⟨tid0, db1⟩ := p
      rw [hc] at h
      simp only at h
      injection h with h'
      injection h' with hid hdb
      subst hid; subst hdb
      obtain ⟨hdb1, -⟩ := entityCreate_ok_elim d gen "transactions" none none now hc
      subst hdb1
      rfl
  · intro c
    rfl

/-- Witness for C10: creating with a request body carrying currency `"USD"`
still stores the row with currency `"SGD"`. -/
theorem transaction_currency_always_sgd_witness :
    ({ entities := [{ id := "n1", type := "transactions", created_at := 3, updated_at := 3 }],
       transactions := [{ id := "n1", amount := 7, currency := "SGD", transaction_date := 2, description := "w", account := "acc" }] } : DB).transactions =
      ({} : DB).transactions ++
        [{ id := "n1", amount := 7, currency := "SGD", transaction_date := 2, description := "w", account := "acc", category := none, author := "system", notes := none }] :=
  (transaction_currency_always_sgd {} (fun _ => "n1") 3
      { amount := 7, currency := "USD", transaction_date := 2, description := "w", account := "acc" }).1
    "n1" _ rfl

/-! ## Claim C6: listing — superseded suppression, order, bounds -/

/-- C6: `TransactionOperations.list` appends an implicit "not superseded"
predicate unless the caller opts in via `include_superseded` (every returned
row is then non-superseded); the result is ordered by transaction date
descending then creation time descending, and holds at most `limit` rows;
on the concrete store of 5 records with 1 superseded, a default list returns
exactly 4 rows and an opted-in list exactly 5. -/
theorem transaction_list_excludes_superseded_ordered_bounded (db : DB)
    (f : TxFilters) (limit offset : Nat) :
    (f.include_superseded = false →
       ∀ te ∈ transactionList db f limit offset, te.2.superseded_by = none) ∧
    List.Sorted txBefore (transactionList db f limit offset) ∧
    (transactionList db f limit offset).length ≤ limit ∧
    (transactionList sampleDB {} 100 0).length = 4 ∧
    (transactionList sampleDB { include_superseded := true } 100 0).length = 5 := by
  refine ⟨?_, ?_, ?_, by decide, by decide⟩
  · intro hinc te hte
    unfold transactionList at hte
    have h1 := List.mem_of_mem_drop (List.mem_of_mem_take hte)
    have h2 := (List.mem_insertionSort txBefore).mp h1
    have h3 := (List.mem_filter.mp h2).2
    rw [hinc] at h3
    exact (by simpa using h3 :
      txMatchesFilters f te.1 = true ∧ te.2.superseded_by = none).2
  · unfold transactionList
    exact ((List.sorted_insertionSort txBefore _).sublist
      (List.take_sublist _ _ |>.trans (List.drop_sublist _ _)))
  · unfold transactionList
    exact List.length_take_le _ _

/-- Witness for C6: the top row of a default listing over the sample store
is a member and indeed non-superseded. -/
theorem transaction_list_excludes_superseded_witness :
    (({ id := "t5", amount := 5, currency := "SGD", transaction_date := 5, description := "", account := "acc" } : TransactionRow),
     ({ id := "t5", type := "transactions", created_at := 5, updated_at := 5 } : Entity)) ∈
      transactionList sampleDB {} 100 0 ∧
    (({ id := "t5", amount := 5, currency := "SGD", transaction_date := 5, description := "", account := "acc" } : TransactionRow),
     ({ id := "t5", type := "transactions", created_at := 5, updated_at := 5 } : Entity)).2.superseded_by = none :=
  ⟨by decide,
   (transaction_list_excludes_superseded_ordered_bounded sampleDB {} 100 0).1
     rfl _ (by decide)⟩

/-! ## Claim C7: partial update — frame conditions -/

/-- C7: `TransactionOperations.update` writes only the non-null fields of
the partial map: the identity field is excluded even when present in the
map; every unmentioned field keeps its previous value and every mentioned
field takes the supplied value; the updated row replaces the old one and the
owning entity's `updated_at` is advanced while all other rows and entities
are untouched; an empty/all-null partial map performs no write at all. -/
theorem transaction_update_partial_frame (db : DB) (tid : String)
    (u : TxUpdate) (now : Nat) :
    (u.isEmpty = true → transactionUpdate db tid u now = db) ∧
    (u.isEmpty = false →
      (transactionUpdate db tid u now).transactions =
        db.transactions.map (fun t => if t.id == tid then applyTxUpdate u t else t) ∧
      (transactionUpdate db tid u now).entities =
        db.entities.map (fun e => if e.id == tid then { e with updated_at := now } else e)) ∧
    (∀ t, (applyTxUpdate u t).id = t.id) ∧
    (u.amount = none → ∀ t, (applyTxUpdate u t).amount = t.amount) ∧
    (u.currency = none → ∀ t, (applyTxUpdate u t).currency = t.currency) ∧
    (u.transaction_date = none → ∀ t, (applyTxUpdate u t).transaction_date = t.transaction_date) ∧
    (u.description = none → ∀ t, (applyTxUpdate u t).description = t.description) ∧
    (u.account = none → ∀ t, (applyTxUpdate u t).account = t.account) ∧
    (u.category = none → ∀ t, (applyTxUpdate u t).category = t.category) ∧
    (u.author = none → ∀ t, (applyTxUpdate u t).author = t.author) ∧
    (u.notes = none → ∀ t, (applyTxUpdate u t).notes = t.notes) ∧
    (∀ v, u.amount = some v → ∀ t, (applyTxUpdate u t).amount = v) ∧
    (∀ v, u.currency = some v → ∀ t, (applyTxUpdate u t).currency = v) ∧
    (∀ v, u.transaction_date = some v → ∀ t, (applyTxUpdate u t).transaction_date = v) ∧
    (∀ v, u.description = some v → ∀ t, (applyTxUpdate u t).description = v) ∧
    (∀ v, u.account = some v → ∀ t, (applyTxUpdate u t).account = v) ∧
    (∀ v, u.category = some v → ∀ t, (applyTxUpdate u t).category = some v) ∧
    (∀ v, u.author = some v → ∀ t, (applyTxUpdate u t).author = v) ∧
    (∀ v, u.notes = some v → ∀ t, (applyTxUpdate u t).notes = some v) := by
  refine ⟨?_, ?_, ?_, ?_, ?_, ?_, ?_, ?_, ?_, ?_, ?_, ?_, ?_, ?_, ?_, ?_, ?_, ?_, ?_⟩
  · intro h; unfold transactionUpdate; rw [if_pos h]
  · intro h; unfold transactionUpdate; rw [if_neg (by simp [h])]
    exact ⟨rfl, rfl⟩
  · intro t; rfl
  · intro h t; simp [applyTxUpdate, h]
  · intro h t; simp [applyTxUpdate, h]
  · intro h t; simp [applyTxUpdate, h]
  · intro h t; simp [applyTxUpdate, h]
  · intro h t; simp [applyTxUpdate, h]
  · intro h t; simp [applyTxUpdate, h]
  · intro h t; simp [applyTxUpdate, h]
  · intro h t; simp [applyTxUpdate, h]
  · intro v h t; simp [applyTxUpdate, h]
  · intro v h t; simp [applyTxUpdate, h]
  · intro v h t; simp [applyTxUpdate, h]
  · intro v h t; simp [applyTxUpdate, h]
  · intro v h t; simp [applyTxUpdate, h]
  · intro v h t; simp [applyTxUpdate, h]
  · intro v h t; simp [applyTxUpdate, h]
  · intro v h t; simp [applyTxUpdate, h]

/-- Witness for C7: on a record with amount 10 and notes "x", updating only
the amount to 20 yields amount 20 with notes unchanged, and the owning
entity's `updated_at` is advanced; the spec's no-op case is exercised with
the all-null map. -/
theorem transaction_update_partial_frame_witness :
    (transactionUpdate
        { entities := [{ id := "e1", type := "transactions", created_at := 1, updated_at := 1 }],
          transactions := [{ id := "e1", amount := 10, currency := "SGD", transaction_date := 1, description := "d", account := "acc", notes := some "x" }] }
        "e1" { amount := some 20 } 7).transactions =
      [{ id := "e1", amount := 20, currency := "SGD", transaction_date := 1, description := "d", account := "acc", notes := some "x" }] ∧
    (transactionUpdate
        { entities := [{ id := "e1", type := "transactions", created_at := 1, updated_at := 1 }],
          transactions := [{ id := "e1", amount := 10, currency := "SGD", transaction_date := 1, description := "d", account := "acc", notes := some "x" }] }
        "e1" { amount := some 20 } 7).entities =
      [{ id := "e1", type := "transactions", created_at := 1, updated_at := 7 }] ∧
    transactionUpdate
        { entities := [{ id := "e1", type := "transactions", created_at := 1, updated_at := 1 }],
          transactions := [{ id := "e1", amount := 10, currency := "SGD", transaction_date := 1, description := "d", account := "acc", notes := some "x" }] }
        "e1" {} 7 =
      { entities := [{ id := "e1", type := "transactions", created_at := 1, updated_at := 1 }],
        transactions := [{ id := "e1", amount := 10, currency := "SGD", transaction_date := 1, description := "d", account := "acc", notes := some "x" }] } := by
  have h1 := (transaction_update_partial_frame
      { entities := [{ id := "e1", type := "transactions", created_at := 1, updated_at := 1 }],
        transactions := [{ id := "e1", amount := 10, currency := "SGD", transaction_date := 1, description := "d", account := "acc", notes := some "x" }] }
      "e1" { amount := some 20 } 7).2.1 (by decide)
  have h2 := (transaction_update_partial_frame
      { entities := [{ id := "e1", type := "transactions", created_at := 1, updated_at := 1 }],
        transactions := [{ id := "e1", amount := 10, currency := "SGD", transaction_date := 1, description := "d", account := "acc", notes := some "x" }] }
      "e1" {} 7).1 (by decide)
  refine ⟨?_, ?_, h2⟩
  · rw [h1.1]; decide
  · rw [h1.2]; decide

/-! ## Claim C4: fixed authentication resolution order -/

/-- C4: the resolver's order is fixed.  When the `Authorization` header
carries a bearer credential, that credential alone determines the outcome —
the result is literally independent of any `X-API-Key` header, a valid
token authenticates via "jwt", and an invalid or expired token is a hard
failure (no fall-through).  Without a bearer credential, a non-empty API key
is verified (success authenticates via "api_key", failure — including an
unknown user — raises invalid_api_key); with neither credential the
resolver fails with the authentication-required error. -/
theorem auth_resolution_order_fixed (cfgSecret : String) (now : Nat)
    (db : AuthDB) :
    (∀ tok key,
       authenticateRequest cfgSecret now db { authorization := .bearer tok, x_api_key := key } =
         authenticateRequest cfgSecret now db { authorization := .bearer tok }) ∧
    (∀ tok key p, validateAccessToken cfgSecret now tok = .ok p →
       authenticateRequest cfgSecret now db { authorization := .bearer tok, x_api_key := key } =
         (.ok p.sub p.username p.is_admin "jwt", db)) ∧
    (∀ tok key, validateAccessToken cfgSecret now tok = .invalidToken →
       authenticateRequest cfgSecret now db { authorization := .bearer tok, x_api_key := key } =
         (.err "invalid_token", db)) ∧
    (∀ tok key, validateAccessToken cfgSecret now tok = .expiredSignature →
       authenticateRequest cfgSecret now db { authorization := .bearer tok, x_api_key := key } =
         (.err "token_expired", db)) ∧
    (∀ hdr key uid kid db2 u, (∀ tok, hdr ≠ AuthHeader.bearer tok) → key ≠ "" →
       verifyApiKeyAndGetUser db key now = (some (uid, kid), db2) →
       getUserById db2 uid = some u →
       authenticateRequest cfgSecret now db { authorization := hdr, x_api_key := key } =
         (.ok u.id u.username u.is_admin "api_key", db2)) ∧
    (∀ hdr key uid kid db2, (∀ tok, hdr ≠ AuthHeader.bearer tok) → key ≠ "" →
       verifyApiKeyAndGetUser db key now = (some (uid, kid), db2) →
       getUserById db2 uid = none →
       authenticateRequest cfgSecret now db { authorization := hdr, x_api_key := key } =
         (.err "invalid_api_key", db2)) ∧
    (∀ hdr key db2, (∀ tok, hdr ≠ AuthHeader.bearer tok) → key ≠ "" →
       verifyApiKeyAndGetUser db key now = (none, db2) →
       authenticateRequest cfgSecret now db { authorization := hdr, x_api_key := key } =
         (.err "invalid_api_key", db2)) ∧
    (∀ hdr, (∀ tok, hdr ≠ AuthHeader.bearer tok) →
       authenticateRequest cfgSecret now db { authorization := hdr, x_api_key := "" } =
         (.err "missing_auth", db)) := by
  refine ⟨?_, ?_, ?_, ?_, ?_, ?_, ?_, ?_⟩
  · intro tok key; rfl
  · intro tok key p h; simp [authenticateRequest, h]
  · intro tok key h; simp [authenticateRequest, h]
  · intro tok key h; simp [authenticateRequest, h]
  · intro hdr key uid kid db2 u hnb hk hv hu
    cases hdr with
    | bearer tok => exact absurd rfl (hnb tok)
    | absent => simp [authenticateRequest, hk, hv, hu]
    | nonBearer => simp [authenticateRequest, hk, hv, hu]
  · intro hdr key uid kid db2 hnb hk hv hu
    cases hdr with
    | bearer tok => exact absurd rfl (hnb tok)
    | absent => simp [authenticateRequest, hk, hv, hu]
    | nonBearer => simp [authenticateRequest, hk, hv, hu]
  · intro hdr key db2 hnb hk hv
    cases hdr with
    | bearer tok => exact absurd rfl (hnb tok)
    | absent => simp [authenticateRequest, hk, hv]
    | nonBearer => simp [authenticateRequest, hk, hv]
  · intro hdr hnb
    cases hdr with
    | bearer tok => exact absurd rfl (hnb tok)
    | absent => rfl
    | nonBearer => rfl

/-- Witness for C4: a request carrying both a valid bearer token and an API
key header resolves via the bearer method. -/
theorem auth_resolution_order_fixed_witness :
    authenticateRequest "s" 5 {}
        { authorization := .bearer (.signed { sub := "u1", username := "alice", is_admin := true } "s" 10),
          x_api_key := "some-key" } =
      (.ok "u1" "alice" true "jwt", ({} : AuthDB)) :=
  (auth_resolution_order_fixed "s" 5 {}).2.1
    (.signed { sub := "u1", username := "alice", is_admin := true } "s" 10)
    "some-key" { sub := "u1", username := "alice", is_admin := true } (by decide)

/-! ## Claim C5: revoked or expired API keys fail verification -/

/-- C5: when the presented secret's hash matches a stored key, verification
still fails — and the resolver rejects the request with invalid_api_key —
if the key's revocation timestamp is set or its expiry has passed; for a
matching, non-revoked, non-expired key, verification returns the owning
user and key id and advances the key's last-used timestamp to `now`. -/
theorem api_key_revoked_expired_fail_valid_succeeds (db : AuthDB)
    (cfgSecret candidate : String) (now : Nat) (k : ApiKeyRow)
    (hfind : db.api_keys.find? (fun r => verifySecret candidate r.key_hash) = some k) :
    (k.revoked_at.isSome = true →
       (verifyApiKeyAndGetUser db candidate now).1 = none ∧
       (candidate ≠ "" →
         (authenticateRequest cfgSecret now db { authorization := .absent, x_api_key := candidate }).1 =
           .err "invalid_api_key")) ∧
    (∀ e, k.expires_at = some e → e ≤ now →
       (verifyApiKeyAndGetUser db candidate now).1 = none ∧
       (candidate ≠ "" →
         (authenticateRequest cfgSecret now db { authorization := .absent, x_api_key := candidate }).1 =
           .err "invalid_api_key")) ∧
    (k.revoked_at = none → (∀ e, k.expires_at = some e → now < e) →
       (verifyApiKeyAndGetUser db candidate now).1 = some (k.user_id, k.id) ∧
       { k with last_seen := some now } ∈ (verifyApiKeyAndGetUser db candidate now).2.api_keys) := by
  refine ⟨?_, ?_, ?_⟩
  · intro hrev
    have hv : verifyApiKeyAndGetUser db candidate now = (none, db) := by
      unfold verifyApiKeyAndGetUser
      rw [hfind]
      simp [hrev]
    refine ⟨by rw [hv], ?_⟩
    intro hc
    simp [authenticateRequest, hc, hv]
  · intro e hexp hle
    have hv : verifyApiKeyAndGetUser db candidate now = (none, db) := by
      unfold verifyApiKeyAndGetUser
      rw [hfind]
      by_cases hrev : k.revoked_at.isSome
      · simp [hrev]
      · simp [hrev, hexp, hle]
    refine ⟨by rw [hv], ?_⟩
    intro hc
    simp [authenticateRequest, hc, hv]
  · intro hrev hexp
    have hcond : (match k.expires_at with
        | some e => decide (e ≤ now) | none => false) = false := by
      cases he : k.expires_at with
      | none => rfl
      | some e =>
        have := hexp e he
        simp [this, Nat.not_le.mpr this]
    have hv : verifyApiKeyAndGetUser db candidate now =
        (some (k.user_id, k.id),
         { db with api_keys := db.api_keys.map (fun (r : ApiKeyRow) =>
             if r.id == k.id then { r with last_seen := some now } else r) }) := by
      unfold verifyApiKeyAndGetUser
      rw [hfind]
      simp [hrev, hcond]
    refine ⟨by rw [hv], ?_⟩
    rw [hv]
    have hk : k ∈ db.api_keys := List.mem_of_find?_eq_some hfind
    have := List.mem_map_of_mem (fun (r : ApiKeyRow) =>
      if r.id == k.id then { r with last_seen := some now } else r) hk
    simpa using this

/-- Witness for C5: a store holding one revoked key whose hash matches the
presented secret rejects the request. -/
theorem api_key_revoked_witness :
    (verifyApiKeyAndGetUser
        { users := [{ id := "u1", username := "alice", is_admin := false }],
          api_keys := [{ id := "k1", user_id := "u1", name := "key",
                         key_hash := { secret := "mg_sk_agent_abc", salt := 4 },
                         revoked_at := some 3 }] }
        "mg_sk_agent_abc" 9).1 = none ∧
    (authenticateRequest "s" 9
        { users := [{ id := "u1", username := "alice", is_admin := false }],
          api_keys := [{ id := "k1", user_id := "u1", name := "key",
                         key_hash := { secret := "mg_sk_agent_abc", salt := 4 },
                         revoked_at := some 3 }] }
        { authorization := .absent, x_api_key := "mg_sk_agent_abc" }).1 =
      .err "invalid_api_key" := by
  have h := (api_key_revoked_expired_fail_valid_succeeds
      { users := [{ id := "u1", username := "alice", is_admin := false }],
        api_keys := [{ id := "k1", user_id := "u1", name := "key",
                       key_hash := { secret := "mg_sk_agent_abc", salt := 4 },
                       revoked_at := some 3 }] }
      "s" "mg_sk_agent_abc" 9
      { id := "k1", user_id := "u1", name := "key",
        key_hash := { secret := "mg_sk_agent_abc", salt := 4 },
        revoked_at := some 3 }
      (by decide)).1 (by decide)
  exact ⟨h.1, h.2 (by decide)⟩

/-! ## Claim C8: supersession is terminal and directional -/

/-- Looking an id up after appending rows still finds the original row. -/
theorem find?_id_append_of_some {l : List Entity} {a : String} {e : Entity}
    (h : l.find? (fun x => x.id == a) = some e) (l2 : List Entity) :
    (l ++ l2).find? (fun x => x.id == a) = some e := by
  rw [List.find?_append, h]
  rfl

/-- Looking an id up through an id-preserving row transformation finds the
transformed row. -/
theorem find?_id_map (f : Entity → Entity) (hf : ∀ x, (f x).id = x.id)
    (l : List Entity) (a : String) :
    (l.map f).find? (fun x => x.id == a) =
      (l.find? (fun x => x.id == a)).map f := by
  induction l with
  | nil => rfl
  | cons x xs ih =>
    by_cases hx : (x.id == a) = true
    · simp [List.find?_cons, hf, hx]
    · simp [List.find?_cons, hf, hx, ih]

/-- Registry lookup after an id-preserving per-row UPDATE. -/
theorem entityGetById_map (f : Entity → Entity) (hf : ∀ x, (f x).id = x.id)
    {db : DB} {a : String} {e : Entity} (h : entityGetById db a = some e) :
    (db.entities.map f).find? (fun x => x.id == a) = some (f e) := by
  rw [find?_id_map f hf]
  rw [show db.entities.find? (fun x => x.id == a) = some e from h]
  rfl

/-- Effect of one exposed operation on the registry row of `a`: the row
stays present; a supersede of `a` leaves its `superseded_by` non-null; any
other operation leaves its `superseded_by` unchanged. -/
theorem applyOp_preserves_superseded (a : String) (op : Op) (db : DB)
    (e : Entity) (h : entityGetById db a = some e) :
    ∃ e', entityGetById (applyOp db op) a = some e' ∧
      (op.supersedesId a → ∃ c, e'.superseded_by = some c) ∧
      (¬ op.supersedesId a → e'.superseded_by = e.superseded_by) := by
  have hpa : (e.id == a) = true := by
    have h' : db.entities.find? (fun x => x.id == a) = some e := h
    have h2 := List.find?_some h'
    simpa using h2
  have hea : e.id = a := by simpa using hpa
  cases op with
  | entCreate gen ty g d now =>
    refine ⟨e, ?_, fun hs => absurd hs (by simp [Op.supersedesId]), fun _ => rfl⟩
    simp only [applyOp]
    cases hc : entityCreate db gen ty g d now with
    | error _ => exact h
    | ok p =>
      obtain ⟨id1, db'⟩ := p
      obtain ⟨hdb, -⟩ := entityCreate_ok_elim db gen ty g d now hc
      subst hdb
      exact find?_id_append_of_some
        (show db.entities.find? (fun x => x.id == a) = some e from h) _
  | entSupersede old_id new_id now =>
    have hf : ∀ (x : Entity),
        ((fun (y : Entity) => if y.id == old_id then
            { y with superseded_by := some new_id, superseded_at := some now,
                     updated_at := now } else y) x).id = x.id := by
      intro x; by_cases hh : (x.id == old_id) = true <;> simp [hh]
    refine ⟨_, entityGetById_map _ hf h, ?_, ?_⟩
    · intro hs
      have ho : old_id = a := hs
      subst ho
      refine ⟨new_id, ?_⟩
      simp [hpa]
    · intro hns
      have ho : (e.id == old_id) = false := by
        rw [hea]
        exact beq_eq_false_iff_ne.mpr (fun hh => hns hh.symm)
      simp [ho]
  | entTouch id now =>
    have hf : ∀ (x : Entity),
        ((fun (y : Entity) => if y.id == id then
            { y with updated_at := now } else y) x).id = x.id := by
      intro x; by_cases hh : (x.id == id) = true <;> simp [hh]
    refine ⟨_, entityGetById_map _ hf h,
        fun hs => absurd hs (by simp [Op.supersedesId]), ?_⟩
    intro _
    by_cases hh : (e.id == id) = true <;> simp [hh]
  | txCreate gen amount tdate descr acct cat notes author now =>
    refine ⟨e, ?_, fun hs => absurd hs (by simp [Op.supersedesId]), fun _ => rfl⟩
    simp only [applyOp]
    cases hc : transactionCreate db gen amount tdate descr acct cat notes author now with
    | error _ => exact h
    | ok p =>
      obtain ⟨tid, db'⟩ := p
      unfold transactionCreate at hc
      cases hce : entityCreate db gen "transactions" none none now with
      | error _ => rw [hce] at hc; exact absurd hc (by simp)
      | ok q =>
        obtain ⟨tid0, db1⟩ := q
        rw [hce] at hc
        simp only at hc
        injection hc with hc'
        injection hc' with hid hdb
        obtain ⟨hdb1, -⟩ := entityCreate_ok_elim db gen "transactions" none none now hce
        subst hdb
        subst hdb1
        exact find?_id_append_of_some
          (show db.entities.find? (fun x => x.id == a) = some e from h) _
  | txUpdate tid u now =>
    by_cases hemp : u.isEmpty = true
    · have hres : applyOp db (.txUpdate tid u now) = db := by
        simp [applyOp, transactionUpdate, hemp]
      rw [hres]
      exact ⟨e, h, fun hs => absurd hs (by simp [Op.supersedesId]), fun _ => rfl⟩
    · have hf : ∀ (x : Entity),
          ((fun (y : Entity) => if y.id == tid then
              { y with updated_at := now } else y) x).id = x.id := by
        intro x; by_cases hh : (x.id == tid) = true <;> simp [hh]
      have hres : applyOp db (.txUpdate tid u now) =
          { db with
              transactions := db.transactions.map (fun t =>
                if t.id == tid then applyTxUpdate u t else t),
              entities := db.entities.map (fun (y : Entity) =>
                if y.id == tid then { y with updated_at := now } else y) } := by
        simp [applyOp, transactionUpdate, hemp]
      rw [hres]
      refine ⟨_, entityGetById_map _ hf h,
          fun hs => absurd hs (by simp [Op.supersedesId]), ?_⟩
      intro _
      by_cases hh : (e.id == tid) = true <;> simp [hh]
  | txDelete tid =>
    refine ⟨e, ?_, fun hs => absurd hs (by simp [Op.supersedesId]), fun _ => rfl⟩
    simp only [applyOp]
    unfold deleteTransaction
    by_cases hex : db.transactions.any (fun t => t.id == tid) = true
    · rw [if_pos hex]
      exact h
    · rw [if_neg hex]
      exact h

/-- After a supersede, any later operation sequence that does not supersede
`a` again keeps its link at `some b`. -/
theorem applyOps_keeps_link (a b : String) (ops : List Op) :
    ∀ db e, entityGetById db a = some e → e.superseded_by = some b →
      (∀ op ∈ ops, ¬ op.supersedesId a) →
      ∃ e', entityGetById (applyOps db ops) a = some e' ∧
        e'.superseded_by = some b := by
  induction ops with
  | nil =>
    intro db e h hb _
    exact ⟨e, h, hb⟩
  | cons op ops ih =>
    intro db e h hb hno
    obtain ⟨e1, h1, -, hkeep⟩ := applyOp_preserves_superseded a op db e h
    have he1 : e1.superseded_by = some b := by
      rw [hkeep (hno op (by simp))]
      exact hb
    exact ih (applyOp db op) e1 h1 he1 (fun o ho => hno o (by simp [ho]))

/-- After a supersede, any later operation sequence at all keeps the link
non-null. -/
theorem applyOps_keeps_nonnull (a : String) (ops : List Op) :
    ∀ db e, entityGetById db a = some e → e.superseded_by ≠ none →
      ∃ e', entityGetById (applyOps db ops) a = some e' ∧
        e'.superseded_by ≠ none := by
  induction ops with
  | nil =>
    intro db e h hb
    exact ⟨e, h, hb⟩
  | cons op ops ih =>
    intro db e h hb
    obtain ⟨e1, h1, hsup, hkeep⟩ := applyOp_preserves_superseded a op db e h
    have he1 : e1.superseded_by ≠ none := by
      by_cases hs : op.supersedesId a
      · obtain ⟨c, hc⟩ := hsup hs
        simp [hc]
      · rw [hkeep hs]
        exact hb
    exact ih (applyOp db op) e1 h1 he1

/-- C8: once `supersede(a, b)` succeeds on an existing entity `a`, `get(a)`
shows `superseded_by = b`; it continues to show `b` after any sequence of
exposed operations that does not supersede `a` again (a second supersede is
not disallowed by the code — it overwrites the link), and — at minimum —
after any operation sequence whatsoever `a`'s `superseded_by` never reverts
to null: supersession is never reversed. -/
theorem supersede_terminal_directional (db : DB) (a b : String) (now : Nat)
    (e : Entity) (h : entityGetById db a = some e) :
    ((entityGetById (entitySupersede db a b now) a).map
        (fun x => x.superseded_by) = some (some b)) ∧
    (∀ ops : List Op, (∀ op ∈ ops, ¬ op.supersedesId a) →
       ∃ e', entityGetById (applyOps (entitySupersede db a b now) ops) a = some e' ∧
         e'.superseded_by = some b) ∧
    (∀ ops : List Op,
       ∃ e', entityGetById (applyOps (entitySupersede db a b now) ops) a = some e' ∧
         e'.superseded_by ≠ none) := by
  have hpa : (e.id == a) = true := by
    have h' : db.entities.find? (fun x => x.id == a) = some e := h
    have h2 := List.find?_some h'
    simpa using h2
  have hf : ∀ (x : Entity),
      ((fun (y : Entity) => if y.id == a then
          { y with superseded_by := some b, superseded_at := some now,
                   updated_at := now } else y) x).id = x.id := by
    intro x; by_cases hh : (x.id == a) = true <;> simp [hh]
  have hafter : entityGetById (entitySupersede db a b now) a =
      some { e with superseded_by := some b, superseded_at := some now,
                    updated_at := now } := by
    have := entityGetById_map _ hf h
    simp only [hpa, if_true] at this
    exact this
  refine ⟨by rw [hafter]; rfl, ?_, ?_⟩
  · intro ops hno
    exact applyOps_keeps_link a b ops _ _ hafter rfl hno
  · intro ops
    exact applyOps_keeps_nonnull a ops _ _ hafter (by simp)

/-- Witness for C8: in the sample store, superseding `t1` by `t2` and then
touching `t1` still shows `superseded_by = t2`. -/
theorem supersede_terminal_directional_witness :
    ∃ e', entityGetById
        (applyOps (entitySupersede sampleDB "t1" "t2" 10) [.entTouch "t1" 11])
        "t1" = some e' ∧ e'.superseded_by = some "t2" :=
  (supersede_terminal_directional sampleDB "t1" "t2" 10
      { id := "t1", type := "transactions", created_at := 1, updated_at := 1 }
      (by decide)).2.1 [.entTouch "t1" 11]
    (by
      intro op hop
      simp only [List.mem_singleton] at hop
      subst hop
      simp [Op.supersedesId])

end MemoGarden
